import Mathlib

/-!
Verification of the co-reader anchoring and annotation-store core.

The definitions below are a shallow embedding of the TypeScript source:

* string search (`String.prototype.includes` / `indexOf` / `slice`) over
  `List Char`;
* a DOM fragment model (`DomNode`) together with the parts of the browser
  Range API that the source reads (`JsRange`);
* anchor creation (`createHtmlAnchor`, `extractContext` from
  `src/lib/selection.ts`) and anchor resolution (`resolveHtmlAnchor`,
  `resolvePdfAnchor` from the anchoring module);
* the localStorage-backed annotation store (`highlights.ts`,
  `documents.ts`, `vocabulary.ts`, `ai.ts`) as explicit state passing over
  a `Store` record.

Browser layout (`Range.getClientRects`, `span.getBoundingClientRect`) and
`document.evaluate` are external APIs; they are modelled as oracle fields
of `BrowserDoc` respectively as the stored rectangle of a `PdfSpan`.
-/

-- ============================================
-- JS string primitives on lists of characters
-- ============================================

/-- Does `sub` occur at the head of `l`?  (The inner loop of
`String.prototype.indexOf`.) -/
def startsWithSeq : List Char → List Char → Bool
  | _, [] => true
  | [], _ :: _ => false
  | a :: as, b :: bs => a == b && startsWithSeq as bs

/-- `l.indexOf sub` as on JS strings: index of the first occurrence of
`sub` in `l`, `none` for JS `-1`. -/
def firstIdxOfSeq : List Char → List Char → Option Nat
  | [], sub => if sub.isEmpty then some 0 else none
  | a :: as, sub =>
    if startsWithSeq (a :: as) sub then some 0
    else (firstIdxOfSeq as sub).map (· + 1)

/-- `s.includes sub` for JS strings (`indexOf(sub) !== -1`). -/
def jsIncludes (s sub : String) : Bool :=
  (firstIdxOfSeq s.toList sub.toList).isSome

/-- `s.slice a b` for JS strings with `0 ≤ a ≤ b` already clamped by the
caller: the characters of positions `[a, b)`. -/
def stringSlice (s : String) (a b : Nat) : String :=
  String.mk ((s.toList.drop a).take (b - a))

/-- `s.slice k (-k)` for JS strings: strip up to `k` characters from each
end (empty when fewer than `2*k` characters are available). -/
def jsSliceCore (s : String) (k : Nat) : String :=
  String.mk ((s.toList.drop k).take (s.toList.length - 2 * k))

-- ============================================
-- DOM fragment model and the Range fields the source reads
-- ============================================

/-- A DOM node: a text node with its character data, or an element with a
tag name and a list of child nodes in document order. -/
inductive DomNode where
  | text : String → DomNode
  | elem : String → List DomNode → DomNode

mutual

/-- `node.textContent`: for a text node its data, for an element the
concatenation of the text of its descendants in document order. -/
def DomNode.textContent : DomNode → String
  | DomNode.text s => s
  | DomNode.elem _ cs => childListText cs

/-- Concatenated `textContent` of a list of sibling nodes. -/
def childListText : List DomNode → String
  | [] => ""
  | c :: cs => DomNode.textContent c ++ childListText cs

end

/-- Character length of `node.textContent`. -/
def DomNode.textLen (n : DomNode) : Nat :=
  n.textContent.length

/-- The node addressed by a path of child indices from `root`. -/
def nodeAt : DomNode → List Nat → Option DomNode
  | n, [] => some n
  | DomNode.text _, _ :: _ => none
  | DomNode.elem _ cs, i :: rest =>
    match cs.get? i with
    | some c => nodeAt c rest
    | none => none

/-- Longest common prefix of two node paths: the path of the DOM
`commonAncestorContainer` of two boundary points. -/
def commonPath : List Nat → List Nat → List Nat
  | a :: as, b :: bs => if a = b then a :: commonPath as bs else []
  | _, _ => []

/-- Character offset of the boundary point `(path, off)` inside the
concatenated text of `node`: the text of everything before the addressed
node in document order, plus the local offset. -/
def globalOffset : List Nat → DomNode → Nat → Nat
  | [], _, off => off
  | _ :: _, DomNode.text _, off => off
  | i :: rest, DomNode.elem _ cs, off =>
    (((cs.take i).map DomNode.textLen).sum) +
      (match cs.get? i with
       | some c => globalOffset rest c off
       | none => 0)

/-- Tag name of an element node. -/
def elemTag : DomNode → Option String
  | DomNode.text _ => none
  | DomNode.elem t _ => some t

/-- 1-based position of child `i` among the preceding siblings sharing the
tag `t` (the `index` counter of the source's `getXPath` loop). -/
def xpathOrdinal (cs : List DomNode) (i : Nat) (t : String) : Nat :=
  1 + ((cs.take i).filter (fun c => elemTag c == some t)).length

/-- The `tagname[index]` segments of `getXPath` below the root, walking the
path top-down (the source builds the same list bottom-up with
`parts.unshift`). -/
def xpathSegsAlong : List Nat → DomNode → List String
  | [], _ => []
  | _ :: _, DomNode.text _ => []
  | i :: rest, DomNode.elem _ cs =>
    match cs.get? i with
    | none => []
    | some c =>
      match elemTag c with
      | none => []
      | some t =>
        (t ++ "[" ++ toString (xpathOrdinal cs i t) ++ "]") :: xpathSegsAlong rest c

/-- `getXPath`: if the node is a text node, start from its parent; collect
`tagname[index]` for every element up to and including the root. -/
def getXPath (root : DomNode) (path : List Nat) : String :=
  let p := match nodeAt root path with
    | some (DomNode.text _) => path.dropLast
    | _ => path
  match root with
  | DomNode.text _ => "/"
  | DomNode.elem t _ =>
    "/" ++ String.intercalate "/" ((t ++ "[1]") :: xpathSegsAlong p root)

/-- The fields of a live DOM `Range` that anchor creation reads: the
document fragment it lives in and its two boundary points, each a path to
a node plus a node-local character offset (`Range.startOffset` /
`Range.endOffset` are exactly these local offsets). -/
structure JsRange where
  root : DomNode
  startPath : List Nat
  startOffset : Nat
  endPath : List Nat
  endOffset : Nat

/-- `range.commonAncestorContainer`. -/
def JsRange.commonAncestor (r : JsRange) : Option DomNode :=
  nodeAt r.root (commonPath r.startPath r.endPath)

/-- `range.toString()`: the document text lying between the two boundary
points. -/
def JsRange.toText (r : JsRange) : String :=
  stringSlice r.root.textContent
    (globalOffset r.startPath r.root r.startOffset)
    (globalOffset r.endPath r.root r.endOffset)

-- ============================================
-- Anchors, context extraction, anchor creation (source: selection.ts and
-- the anchoring module)
-- ============================================

/-- `HtmlAnchor` of `types.ts` (the `type: 'html'` tag is implicit in the
Lean type). -/
structure HtmlAnchor where
  xpath : String
  startOffset : Nat
  endOffset : Nat
  context : String
deriving DecidableEq, Repr

/-- `PdfAnchor` of `types.ts` (the `type: 'pdf'` tag is implicit in the
Lean type). -/
structure PdfAnchor where
  pageNumber : Nat
  startOffset : Nat
  endOffset : Nat
  context : String
deriving DecidableEq, Repr

/-- `BoundingRect` of `types.ts`. -/
structure BoundingRect where
  top : Int
  left : Int
  width : Int
  height : Int
deriving DecidableEq, Repr

/-- The pure tail of `extractContext` (selection.ts lines 85-93), once the
enclosing `textContent` and `range.toString()` have been obtained: locate
the selected substring, then slice `[index - radius, index + len + radius)`
clipped to the content bounds; fall back to the selected text when the
substring is not found. -/
def extractContextCore (textContent selectedText : String) (contextLength : Nat) : String :=
  match firstIdxOfSeq textContent.toList selectedText.toList with
  | none => selectedText
  | some index =>
    let start := index - contextLength
    let stop := min textContent.toList.length (index + selectedText.length + contextLength)
    stringSlice textContent start stop

/-- `extractContext` (selection.ts): read the `textContent` of the range's
`commonAncestorContainer` (a text node or an element; `""` if the range is
detached) and apply the pure core.  The source's default radius is 30;
every caller in the repository uses the default. -/
def extractContext (r : JsRange) (contextLength : Nat) : String :=
  let textContent := match r.commonAncestor with
    | some n => n.textContent
    | none => ""
  extractContextCore textContent r.toText contextLength

/-- `createHtmlAnchor` (anchoring module): xpath of the selection's start
container, the raw `range.startOffset` / `range.endOffset`, and the
extracted context with the default radius 30. -/
def createHtmlAnchor (r : JsRange) : HtmlAnchor :=
  { xpath := getXPath r.root r.startPath
    startOffset := r.startOffset
    endOffset := r.endOffset
    context := extractContext r 30 }

-- ============================================
-- Anchor resolution (source: anchoring module)
-- ============================================

/-- The browser services `resolveHtmlAnchor` consumes: `document.evaluate`
(via the source's `resolveXPath`, `none` both for a missing node and for a
thrown XPath error) and layout, i.e. `Range.getClientRects` for a range
given by a text node's data and two offsets into it. -/
structure BrowserDoc where
  evaluate : String → Option DomNode
  rangeRects : String → Nat → Nat → List BoundingRect

/-- `resolveXPath` (anchoring module): `document.evaluate` wrapped so that
failure yields `null`. -/
def resolveXPath (xpath : String) (doc : BrowserDoc) : Option DomNode :=
  doc.evaluate xpath

/-- The text-node selection step of `resolveHtmlAnchor`: the node itself if
it is a text node, else its first child if that is a text node, else
failure; returns the chosen text node's data. -/
def findHighlightTextNode : DomNode → Option String
  | DomNode.text s => some s
  | DomNode.elem _ (DomNode.text s :: _) => some s
  | DomNode.elem _ _ => none

/-- `resolveHtmlAnchor`: resolve the xpath, pick the text node, verify that
the current node text contains `anchor.context.slice(10, -10)`, build the
range (`setStart`/`setEnd` throw when an offset exceeds the node length),
and return its client rects, `none` when empty. -/
def resolveHtmlAnchor (anchor : HtmlAnchor) (doc : BrowserDoc) : Option (List BoundingRect) :=
  match resolveXPath anchor.xpath doc with
  | none => none
  | some node =>
    match findHighlightTextNode node with
    | none => none
    | some nodeText =>
      if !(jsIncludes nodeText (jsSliceCore anchor.context 10)) then none
      else if anchor.startOffset > nodeText.length || anchor.endOffset > nodeText.length then none
      else
        let rects := doc.rangeRects nodeText anchor.startOffset anchor.endOffset
        if rects.length > 0 then some rects else none

/-- A span of the PDF text layer: its text content and the rectangle its
`getBoundingClientRect()` reports under the current layout. -/
structure PdfSpan where
  text : String
  rect : BoundingRect
deriving DecidableEq, Repr

/-- The span loop of `resolvePdfAnchor`: walk the spans keeping a running
character offset and collect the rectangle of every span whose
`[spanStart, spanEnd)` overlaps `[startOffset, endOffset)` by the test
`spanEnd > startOffset && spanStart < endOffset`. -/
def collectPdfRects : List PdfSpan → Nat → Nat → Nat → List BoundingRect
  | [], _, _, _ => []
  | s :: rest, currentOffset, startOffset, endOffset =>
    let spanEnd := currentOffset + s.text.length
    let tail := collectPdfRects rest spanEnd startOffset endOffset
    if spanEnd > startOffset ∧ currentOffset < endOffset then s.rect :: tail else tail

/-- `resolvePdfAnchor`: fail on a missing text layer, verify that the page
text contains `anchor.context.slice(10, -10)`, then run the span loop and
return the collected rects, `none` when empty. -/
def resolvePdfAnchor (anchor : PdfAnchor) (pageTextContent : String)
    (textLayer : Option (List PdfSpan)) : Option (List BoundingRect) :=
  match textLayer with
  | none => none
  | some spans =>
    let contextCore := jsSliceCore anchor.context 10
    if !(jsIncludes pageTextContent contextCore) then none
    else
      let rects := collectPdfRects spans 0 anchor.startOffset anchor.endOffset
      if rects.length > 0 then some rects else none

/-- The text whose containment check gates `resolveHtmlAnchor`: the data of
the text node found under the anchor's xpath in the current document. -/
def currentContainerText (doc : BrowserDoc) (anchor : HtmlAnchor) : Option String :=
  (resolveXPath anchor.xpath doc).bind findHighlightTextNode

-- ============================================
-- Claim-side comparison definitions
-- ============================================

/-- Modelled from the claim's words (C3): `resolveHtmlAnchor` with the
context-mismatch verification gate removed, all other steps unchanged.
Used only to state that short contexts disable the gate. -/
def resolveHtmlAnchorUngated (anchor : HtmlAnchor) (doc : BrowserDoc) : Option (List BoundingRect) :=
  match resolveXPath anchor.xpath doc with
  | none => none
  | some node =>
    match findHighlightTextNode node with
    | none => none
    | some nodeText =>
      if anchor.startOffset > nodeText.length || anchor.endOffset > nodeText.length then none
      else
        let rects := doc.rangeRects nodeText anchor.startOffset anchor.endOffset
        if rects.length > 0 then some rects else none

/-- Modelled from the claim's words (C3): `resolvePdfAnchor` with the
context-mismatch verification gate removed, all other steps unchanged. -/
def resolvePdfAnchorUngated (anchor : PdfAnchor)
    (textLayer : Option (List PdfSpan)) : Option (List BoundingRect) :=
  match textLayer with
  | none => none
  | some spans =>
    let rects := collectPdfRects spans 0 anchor.startOffset anchor.endOffset
    if rects.length > 0 then some rects else none

/-- Modelled from the claim's words (C9): the text units of the PDF text
layer with their running half-open offset intervals `[start, end)` assigned
in order, paired with their rectangles. -/
def spanIntervals : List PdfSpan → Nat → List (Nat × Nat × BoundingRect)
  | [], _ => []
  | s :: rest, off =>
    (off, off + s.text.length, s.rect) :: spanIntervals rest (off + s.text.length)

/-- Path of the container addressed by the anchor's xpath: the start
container itself, or its parent when the start container is a text node
(mirrors the text-node adjustment of `getXPath`). -/
def addressedContainerPath (r : JsRange) : List Nat :=
  match nodeAt r.root r.startPath with
  | some (DomNode.text _) => r.startPath.dropLast
  | _ => r.startPath

/-- Modelled from the spec's words (C4): the selection start as a character
offset into the concatenated text of the addressed container's text-node
descendants in document order. -/
def specConcatStartOffset (r : JsRange) : Nat :=
  match nodeAt r.root (addressedContainerPath r) with
  | some container =>
    globalOffset (r.startPath.drop (addressedContainerPath r).length) container r.startOffset
  | none => r.startOffset

/-- Modelled from the spec's words (C4): the selection end as a character
offset into the concatenated text of the addressed container's text-node
descendants in document order. -/
def specConcatEndOffset (r : JsRange) : Nat :=
  match nodeAt r.root (addressedContainerPath r) with
  | some container =>
    globalOffset (r.endPath.drop (addressedContainerPath r).length) container r.endOffset
  | none => r.endOffset

-- ============================================
-- Annotation store (source: highlights.ts, documents.ts, vocabulary.ts,
-- ai.ts), localStorage modelled as explicit state
-- ============================================

/-- `Document` of `types.ts` (timestamps as naturals). -/
structure StoredDocument where
  id : String
  title : String
  sourceType : String
  sourcePath : String
  createdAt : Nat
deriving DecidableEq, Repr

/-- `Highlight` of `types.ts`; `hlType` stands for the source's `type`
field (one of `insight`, `definition`, `question`). -/
structure Highlight where
  id : String
  documentId : String
  hlType : String
  text : String
  createdAt : Nat
deriving DecidableEq, Repr

/-- `Note` of `types.ts`. -/
structure Note where
  id : String
  highlightId : String
  content : String
  createdAt : Nat
deriving DecidableEq, Repr

/-- `AIOutput` of `types.ts`; `aiType` stands for the source's `type`
field. -/
structure AIOutput where
  id : String
  highlightId : String
  aiType : String
  content : String
  createdAt : Nat
deriving DecidableEq, Repr

/-- `VocabularyEntry` of `types.ts`. -/
structure VocabularyEntry where
  id : String
  word : String
  contextSentence : String
  documentId : String
  userNote : Option String
  definition : Option String
  createdAt : Nat
deriving DecidableEq, Repr

/-- The localStorage keys the store modules own, as one record:
`coreader_documents`, `coreader_highlights`, `coreader_notes`,
`coreader_ai_outputs`, `coreader_vocabulary`. -/
structure Store where
  documents : List StoredDocument
  highlights : List Highlight
  notes : List Note
  aiOutputs : List AIOutput
  vocabulary : List VocabularyEntry
deriving DecidableEq, Repr

/-- `deleteNotesByHighlight` (highlights.ts): keep the notes whose
`highlightId` differs. -/
def deleteNotesByHighlight (highlightId : String) (s : Store) : Store :=
  { s with notes := s.notes.filter (fun n => n.highlightId != highlightId) }

/-- `deleteAIOutputsByHighlight` (ai.ts): keep the AI outputs whose
`highlightId` differs.  Defined by the repository but never invoked by
`deleteHighlight` or any other function. -/
def deleteAIOutputsByHighlight (highlightId : String) (s : Store) : Store :=
  { s with aiOutputs := s.aiOutputs.filter (fun o => o.highlightId != highlightId) }

/-- `deleteHighlight` (highlights.ts): filter the highlight out; if nothing
was removed return `false` and change nothing, otherwise persist the
filtered list, delete the highlight's notes, and return `true`. -/
def deleteHighlight (id : String) (s : Store) : Bool × Store :=
  let filtered := s.highlights.filter (fun h => h.id != id)
  if filtered.length = s.highlights.length then (false, s)
  else (true, deleteNotesByHighlight id { s with highlights := filtered })

/-- `deleteHighlightsByDocument` (highlights.ts): keep the highlights whose
`documentId` differs; notes are not touched. -/
def deleteHighlightsByDocument (documentId : String) (s : Store) : Store :=
  { s with highlights := s.highlights.filter (fun h => h.documentId != documentId) }

/-- `deleteDocument` (documents.ts): filter the document out; if nothing
was removed return `false` and change nothing, otherwise persist the
filtered list, cascade to `deleteHighlightsByDocument`, and return
`true`. -/
def deleteDocument (id : String) (s : Store) : Bool × Store :=
  let filtered := s.documents.filter (fun d => d.id != id)
  if filtered.length = s.documents.length then (false, s)
  else (true, deleteHighlightsByDocument id { s with documents := filtered })

/-- `deleteVocabularyByDocument` (vocabulary.ts): keep the entries whose
`documentId` differs, returning how many were removed. -/
def deleteVocabularyByDocument (documentId : String) (s : Store) : Nat × Store :=
  let filtered := s.vocabulary.filter (fun v => v.documentId != documentId)
  (s.vocabulary.length - filtered.length, { s with vocabulary := filtered })

/-- The in-place update of `saveNote`'s existing-note branch: replace the
`content` of the first note with the given `highlightId`
(`notes[existingIndex] = { ...notes[existingIndex], content }`), keeping
everything else; `none` when no note matches (`findIndex === -1`). -/
def updateFirstNote : List Note → String → String → Option (Note × List Note)
  | [], _, _ => none
  | n :: ns, highlightId, content =>
    if n.highlightId == highlightId then
      let updated : Note := { n with content := content }
      some (updated, updated :: ns)
    else
      match updateFirstNote ns highlightId content with
      | some (u, ns2) => some (u, n :: ns2)
      | none => none

/-- `saveNote` (highlights.ts): upsert by `highlightId`.  The fresh uuid
and the current time, consumed only by the create branch, are passed in
explicitly. -/
def saveNote (highlightId content freshId : String) (now : Nat) (s : Store) : Note × Store :=
  match updateFirstNote s.notes highlightId content with
  | some (u, notes2) => (u, { s with notes := notes2 })
  | none =>
    let note : Note := { id := freshId, highlightId := highlightId,
                         content := content, createdAt := now }
    (note, { s with notes := s.notes ++ [note] })

-- ============================================
-- Concrete instances used by the theorems below
-- ============================================

/-- A layout oracle for a single line of unit-width characters: the client
rect of the range `[a, b)` of a text node sits at `left = a` with
`width = b - a`.  It makes the character range a resolver worked with
readable off the returned rectangle. -/
def unitLayoutRects : String → Nat → Nat → List BoundingRect :=
  fun _ a b => [{ top := 0, left := (a : Int), width := (b : Int) - (a : Int), height := 1 }]

/-- A 70-character context whose `slice(30, -30)` core is the non-empty
string of ten letters `a`. -/
def c1Context : String :=
  "aaaaaaaaaaaaaaaaaaaaaaaaaaaaaaaaaaaaaaaaaaaaaaaaaaaaaaaaaaaaaaaaaaaaaa"

/-- HTML anchor with the long context `c1Context`. -/
def c1HtmlAnchor : HtmlAnchor :=
  { xpath := "/p[1]", startOffset := 0, endOffset := 1, context := c1Context }

/-- A document whose container text `"bbb"` does not contain the core of
`c1Context`. -/
def c1Doc : BrowserDoc :=
  { evaluate := fun _ => some (DomNode.text "bbb"), rangeRects := unitLayoutRects }

/-- PDF anchor with the long context `c1Context`. -/
def c1PdfAnchor : PdfAnchor :=
  { pageNumber := 1, startOffset := 0, endOffset := 1, context := c1Context }

/-- One PDF text-layer span for the C1 witness. -/
def c1Spans : List PdfSpan :=
  [{ text := "bbb", rect := { top := 0, left := 0, width := 3, height := 1 } }]

/-- The paragraph of the end-to-end scenario:
`<article><p>The quick brown fox</p></article>`. -/
def c2OriginalRoot : DomNode :=
  DomNode.elem "article" [DomNode.elem "p" [DomNode.text "The quick brown fox"]]

/-- The live selection of `"brown"` in the original paragraph: offsets
10-15 inside the single text node. -/
def c2Range : JsRange :=
  { root := c2OriginalRoot, startPath := [0, 0], startOffset := 10,
    endPath := [0, 0], endOffset := 15 }

/-- The re-rendered document in which the paragraph text changed to
`"The slow brown fox"`, with the unit-width layout oracle. -/
def c2ChangedDoc : BrowserDoc :=
  { evaluate := fun xp =>
      if xp == "/article[1]/p[1]" then
        some (DomNode.elem "p" [DomNode.text "The slow brown fox"])
      else none
    rangeRects := unitLayoutRects }

/-- Anchor with a context of at most 20 characters for the C3 witness. -/
def c3Anchor : HtmlAnchor :=
  { xpath := "/p[1]", startOffset := 0, endOffset := 2, context := "short" }

/-- Document for the C3 witness. -/
def c3Doc : BrowserDoc :=
  { evaluate := fun _ => some (DomNode.text "xyz"), rangeRects := unitLayoutRects }

/-- PDF anchor with a context of at most 20 characters for the C3
witness. -/
def c3PdfAnchor : PdfAnchor :=
  { pageNumber := 2, startOffset := 0, endOffset := 2, context := "short" }

/-- PDF text layer for the C3 witness. -/
def c3Spans : List PdfSpan :=
  [{ text := "xy", rect := { top := 0, left := 0, width := 2, height := 1 } }]

/-- A container with two text-node children; the selection lives entirely
in the second one, so its node-local offsets differ from offsets into the
container's concatenated text. -/
def c4Range : JsRange :=
  { root := DomNode.elem "p" [DomNode.text "Hello ", DomNode.text "world"],
    startPath := [1], startOffset := 0, endPath := [1], endOffset := 5 }

/-- Highlight `H1` of the cascade-delete scenario. -/
def c5H1 : Highlight :=
  { id := "H1", documentId := "D1", hlType := "insight", text := "alpha", createdAt := 0 }

/-- Sibling highlight `H2`. -/
def c5H2 : Highlight :=
  { id := "H2", documentId := "D1", hlType := "question", text := "beta", createdAt := 1 }

/-- Note `N1` attached to `H1`. -/
def c5N1 : Note :=
  { id := "N1", highlightId := "H1", content := "note one", createdAt := 0 }

/-- Note `N2` attached to `H2`. -/
def c5N2 : Note :=
  { id := "N2", highlightId := "H2", content := "note two", createdAt := 1 }

/-- AI output `A1` attached to `H1`. -/
def c5A1 : AIOutput :=
  { id := "A1", highlightId := "H1", aiType := "clarify", content := "out", createdAt := 0 }

/-- Store of the cascade-delete scenario: highlights `H1`, `H2`, their
notes, and an AI output for `H1`. -/
def c5Store : Store :=
  { documents := [], highlights := [c5H1, c5H2], notes := [c5N1, c5N2],
    aiOutputs := [c5A1], vocabulary := [] }

/-- Document `D1` of the document-cascade scenario. -/
def c6D1 : StoredDocument :=
  { id := "D1", title := "doc", sourceType := "pdf", sourcePath := "p", createdAt := 0 }

/-- Highlight of `D1`. -/
def c6H1 : Highlight :=
  { id := "H1", documentId := "D1", hlType := "insight", text := "x", createdAt := 0 }

/-- Note attached to that highlight. -/
def c6N1 : Note :=
  { id := "N1", highlightId := "H1", content := "n", createdAt := 0 }

/-- Store with one document, one highlight of it, one note of that
highlight. -/
def c6Store : Store :=
  { documents := [c6D1], highlights := [c6H1], notes := [c6N1],
    aiOutputs := [], vocabulary := [] }

/-- Vocabulary entry of document `D1`. -/
def c7V1 : VocabularyEntry :=
  { id := "V1", word := "laconic", contextSentence := "a laconic reply",
    documentId := "D1", userNote := none, definition := none, createdAt := 0 }

/-- Store with document `D1`, a highlight of it, and a vocabulary entry of
it. -/
def c7Store : Store :=
  { documents := [c6D1], highlights := [c6H1], notes := [],
    aiOutputs := [], vocabulary := [c7V1] }

/-- The empty store. -/
def emptyStore : Store :=
  { documents := [], highlights := [], notes := [], aiOutputs := [], vocabulary := [] }

/-- PDF text layer with spans of lengths 5, 10, 5, 5, i.e. running
intervals `[0,5)`, `[5,15)`, `[15,20)`, `[20,25)`, each with a
distinguishable rectangle. -/
def c9Spans : List PdfSpan :=
  [{ text := "aaaaa", rect := { top := 0, left := 1, width := 1, height := 1 } },
   { text := "bbbbbbbbbb", rect := { top := 0, left := 2, width := 1, height := 1 } },
   { text := "ccccc", rect := { top := 0, left := 3, width := 1, height := 1 } },
   { text := "ddddd", rect := { top := 0, left := 4, width := 1, height := 1 } }]

/-- PDF anchor spanning `[3, 17)` whose short context passes the
verification gate against any page text. -/
def c9Anchor : PdfAnchor :=
  { pageNumber := 1, startOffset := 3, endOffset := 17, context := "ctx" }

/-- The context-boundary selection: the length-4 substring at offset 0 of
the content `"Hello world"`. -/
def c10Range : JsRange :=
  { root := DomNode.elem "p" [DomNode.text "Hello world"],
    startPath := [0], startOffset := 0, endPath := [0], endOffset := 4 }

-- ============================================
-- Helper lemmas: JS string search
-- ============================================

/-- `startsWithSeq` finds exactly the lists with `sub` at their head. -/
theorem startsWithSeq_iff (sub l : List Char) :
    startsWithSeq l sub = true ↔ ∃ v, l = sub ++ v := by
  induction sub generalizing l with
  | nil => simp [startsWithSeq]
  | cons b bs ih =>
    cases l with
    | nil => simp [startsWithSeq]
    | cons a as =>
      simp only [startsWithSeq, Bool.and_eq_true, beq_iff_eq, ih, List.cons_append,
        List.cons.injEq]
      constructor
      · rintro ⟨rfl, v, rfl⟩
        exact ⟨v, rfl, rfl⟩
      · rintro ⟨v, rfl, rfl⟩
        exact ⟨rfl, v, rfl⟩

/-- `firstIdxOfSeq` succeeds exactly on the lists containing `sub`. -/
theorem firstIdxOfSeq_isSome_iff (l sub : List Char) :
    (firstIdxOfSeq l sub).isSome = true ↔ ∃ u v, l = u ++ sub ++ v := by
  induction l with
  | nil =>
    cases sub with
    | nil => simp [firstIdxOfSeq]
    | cons b bs => simp [firstIdxOfSeq]
  | cons a as ih =>
    by_cases h : startsWithSeq (a :: as) sub = true
    · obtain ⟨v, hv⟩ := (startsWithSeq_iff sub (a :: as)).mp h
      have hsome : firstIdxOfSeq (a :: as) sub = some 0 := by
        simp [firstIdxOfSeq, h]
      rw [hsome]
      simp only [Option.isSome_some, true_iff]
      exact ⟨[], v, by simpa using hv⟩
    · have hstep : firstIdxOfSeq (a :: as) sub = (firstIdxOfSeq as sub).map (· + 1) := by
        simp [firstIdxOfSeq, h]
      have hmap : ∀ (o : Option Nat), (Option.map (fun x => x + 1) o).isSome = o.isSome := by
        intro o
        cases o <;> rfl
      rw [hstep, hmap, ih]
      constructor
      · rintro ⟨u, v, rfl⟩
        exact ⟨a :: u, v, rfl⟩
      · rintro ⟨u, v, huv⟩
        cases u with
        | nil =>
          exact absurd ((startsWithSeq_iff sub (a :: as)).mpr ⟨v, by simpa using huv⟩) h
        | cons x xs =>
          simp only [List.cons_append, List.cons.injEq] at huv
          exact ⟨xs, v, huv.2⟩

/-- Every string includes the empty string. -/
theorem jsIncludes_empty (s : String) : jsIncludes s "" = true := by
  apply (firstIdxOfSeq_isSome_iff s.toList "".toList).mpr
  exact ⟨[], s.toList, by simp⟩

/-- The character list of a `slice k (-k)` core. -/
theorem jsSliceCore_toList (s : String) (k : Nat) :
    (jsSliceCore s k).toList = (s.toList.drop k).take (s.toList.length - 2 * k) := rfl

/-- A `(drop a).take b` segment of a list occurs inside it. -/
theorem within_drop_take (l : List Char) (a b : Nat) :
    ∃ u v, l = u ++ (l.drop a).take b ++ v := by
  refine ⟨l.take a, (l.drop a).drop b, ?_⟩
  rw [List.append_assoc, List.take_append_drop, List.take_append_drop]

/-- The 30-stripped core is the `(drop 20).take (len - 60)` segment of the
10-stripped core. -/
theorem core30_eq_segment_of_core10 (s : String) :
    (jsSliceCore s 30).toList
      = ((jsSliceCore s 10).toList.drop 20).take (s.toList.length - 60) := by
  rw [jsSliceCore_toList, jsSliceCore_toList]
  rw [List.drop_take (s.toList.length - 2 * 10) 20 (s.toList.drop 10)]
  rw [List.drop_drop 20 10 s.toList]
  rw [List.take_take]
  have h2 : min (s.toList.length - 60) (s.toList.length - 2 * 10 - 20)
      = s.toList.length - 60 := by omega
  rw [h2]

/-- Text containing the 10-stripped context core also contains the
30-stripped core. -/
theorem jsIncludesCore30_of_core10 (t c : String)
    (h : jsIncludes t (jsSliceCore c 10) = true) :
    jsIncludes t (jsSliceCore c 30) = true := by
  obtain ⟨u, v, huv⟩ := (firstIdxOfSeq_isSome_iff t.toList (jsSliceCore c 10).toList).mp h
  obtain ⟨u2, v2, h2⟩ :=
    within_drop_take ((jsSliceCore c 10).toList) 20 (c.toList.length - 60)
  apply (firstIdxOfSeq_isSome_iff t.toList (jsSliceCore c 30).toList).mpr
  refine ⟨u ++ u2, v2 ++ v, ?_⟩
  rw [huv, h2, core30_eq_segment_of_core10]
  simp [List.append_assoc]

/-- A context of at most 20 characters has an empty 10-stripped core. -/
theorem jsSliceCore10_eq_empty (s : String) (h : s.length ≤ 20) :
    jsSliceCore s 10 = "" := by
  have hl : s.toList.length ≤ 20 := h
  have h0 : s.toList.length - 2 * 10 = 0 := by omega
  rw [jsSliceCore, h0]
  simp

-- ============================================
-- Helper lemmas: store operations and the PDF span loop
-- ============================================

/-- `saveNote`'s find-and-replace fails exactly when no note matches. -/
theorem updateFirstNote_eq_none (l : List Note) (hid c : String)
    (h : ∀ n ∈ l, n.highlightId ≠ hid) : updateFirstNote l hid c = none := by
  induction l with
  | nil => rfl
  | cons n ns ih =>
    have h1 : (n.highlightId == hid) = false := by
      simp only [beq_eq_false_iff_ne, ne_eq]
      exact h n (by simp)
    have h2 : updateFirstNote ns hid c = none := ih (fun m hm => h m (by simp [hm]))
    simp [updateFirstNote, h1, h2]

/-- `saveNote`'s find-and-replace on a list whose only match is a final
single note: that note's content is replaced in place. -/
theorem updateFirstNote_append (l : List Note) (n0 : Note) (hid c : String)
    (h : ∀ n ∈ l, n.highlightId ≠ hid) (h0 : n0.highlightId = hid) :
    updateFirstNote (l ++ [n0]) hid c
      = some ({ n0 with content := c }, l ++ [{ n0 with content := c }]) := by
  induction l with
  | nil => simp [updateFirstNote, h0]
  | cons n ns ih =>
    have h1 : (n.highlightId == hid) = false := by
      simp only [beq_eq_false_iff_ne, ne_eq]
      exact h n (by simp)
    have h2 := ih (fun m hm => h m (by simp [hm]))
    simp [updateFirstNote, h1, h2]

/-- The span loop collects the rectangles of exactly the spans whose
running interval overlaps the anchor interval, in span order. -/
theorem collectPdfRects_eq (spans : List PdfSpan) (off a b : Nat) :
    collectPdfRects spans off a b
      = ((spanIntervals spans off).filter
          (fun u => decide (a < u.2.1 ∧ u.1 < b))).map (fun u => u.2.2) := by
  induction spans generalizing off with
  | nil => rfl
  | cons s rest ih =>
    by_cases h : off + s.text.length > a ∧ off < b
    · simp [collectPdfRects, spanIntervals, List.filter_cons, h, ih]
    · simp [collectPdfRects, spanIntervals, List.filter_cons, h, ih]

-- ============================================
-- Claim theorems
-- ============================================

/-- C1: for every persisted anchor (HTML or PDF) and every current
container/page text, if that text does not contain the context core — the
stored context stripped of the 30-character radius padding on each end
where available — then `resolveHtmlAnchor` / `resolvePdfAnchor` returns
`none`, regardless of the stored `startOffset` and `endOffset`. -/
theorem c1_resolution_fails_without_context_core :
    (∀ (anchor : HtmlAnchor) (doc : BrowserDoc) (nodeText : String),
        currentContainerText doc anchor = some nodeText →
        jsIncludes nodeText (jsSliceCore anchor.context 30) = false →
        resolveHtmlAnchor anchor doc = none) ∧
    (∀ (anchor : PdfAnchor) (pageText : String) (layer : Option (List PdfSpan)),
        jsIncludes pageText (jsSliceCore anchor.context 30) = false →
        resolvePdfAnchor anchor pageText layer = none) := by
  constructor
  · intro anchor doc nodeText hres h30
    have h10 : jsIncludes nodeText (jsSliceCore anchor.context 10) = false := by
      cases h : jsIncludes nodeText (jsSliceCore anchor.context 10)
      · rfl
      · rw [jsIncludesCore30_of_core10 nodeText anchor.context h] at h30
        exact absurd h30 (by simp)
    unfold currentContainerText at hres
    cases hx : resolveXPath anchor.xpath doc with
    | none => simp [resolveHtmlAnchor, hx]
    | some node =>
      rw [hx] at hres
      simp only [Option.bind_some, Option.some_bind] at hres
      cases hf : findHighlightTextNode node with
      | none => simp [resolveHtmlAnchor, hx, hf]
      | some nt =>
        rw [hf] at hres
        have hnt : nt = nodeText := by
          simpa using hres
        subst hnt
        simp [resolveHtmlAnchor, hx, hf, h10]
  · intro anchor pageText layer h30
    have h10 : jsIncludes pageText (jsSliceCore anchor.context 10) = false := by
      cases h : jsIncludes pageText (jsSliceCore anchor.context 10)
      · rfl
      · rw [jsIncludesCore30_of_core10 pageText anchor.context h] at h30
        exact absurd h30 (by simp)
    cases layer with
    | none => rfl
    | some spans => simp [resolvePdfAnchor, h10]

/-- Witness for C1 at a concrete anchor whose 70-character context has a
non-empty stripped core and a current text lacking it. -/
theorem c1_witness :
    (currentContainerText c1Doc c1HtmlAnchor = some "bbb"
      ∧ jsIncludes "bbb" (jsSliceCore c1HtmlAnchor.context 30) = false
      ∧ resolveHtmlAnchor c1HtmlAnchor c1Doc = none)
    ∧ (jsIncludes "bbb" (jsSliceCore c1PdfAnchor.context 30) = false
      ∧ resolvePdfAnchor c1PdfAnchor "bbb" (some c1Spans) = none) := by
  refine ⟨⟨by decide, by decide, ?_⟩, by decide, ?_⟩
  · exact c1_resolution_fails_without_context_core.1 c1HtmlAnchor c1Doc "bbb"
      (by decide) (by decide)
  · exact c1_resolution_fails_without_context_core.2 c1PdfAnchor "bbb" (some c1Spans)
      (by decide)

/-- C2 counterexample: in the §8 scenario the anchor built for `"brown"`
(offsets 10-15, context `"The quick brown fox"`) resolves against the
changed text `"The slow brown fox"` using the stale stored offsets: under
the unit-width layout the single returned rectangle is the one of the
character range `[10, 15)`, whose current text is `"rown "`, while
`"brown"` now starts at offset 9 — the range is not recomputed from the
context core. -/
theorem c2_counterexample :
    createHtmlAnchor c2Range
      = { xpath := "/article[1]/p[1]", startOffset := 10, endOffset := 15,
          context := "The quick brown fox" }
    ∧ resolveHtmlAnchor (createHtmlAnchor c2Range) c2ChangedDoc
      = some [{ top := 0, left := 10, width := 5, height := 1 }]
    ∧ stringSlice "The slow brown fox" 10 15 = "rown "
    ∧ firstIdxOfSeq "The slow brown fox".toList "brown".toList = some 9
    ∧ stringSlice "The slow brown fox" 9 14 = "brown"
    ∧ stringSlice "The slow brown fox" 10 15 ≠ "brown" := by
  refine ⟨by decide, by decide, by decide, by decide, by decide, by decide⟩

/-- C2 amended: resolving the §8 anchor after the paragraph text changed to
`"The slow brown fox"` still succeeds and returns one rectangle, but the
rectangle is computed from the stale stored offsets 10-15 applied to the
current text (covering `"rown "`), not from the current position of
`"brown"`. -/
theorem c2_amended_stale_offsets :
    resolveHtmlAnchor (createHtmlAnchor c2Range) c2ChangedDoc
      = some [{ top := 0, left := 10, width := 5, height := 1 }]
    ∧ stringSlice "The slow brown fox" (createHtmlAnchor c2Range).startOffset
        (createHtmlAnchor c2Range).endOffset = "rown " := by
  refine ⟨by decide, by decide⟩

/-- C3: for every anchor whose stored context has at most 20 characters,
the verification core `context.slice(10, -10)` is the empty string, so the
context gate can never fail: both resolvers behave exactly like their
gate-free counterparts and proceed to offset-based geometry against any
current text. -/
theorem c3_short_context_gate_never_fails :
    (∀ ctx : String, ctx.length ≤ 20 → jsSliceCore ctx 10 = "")
    ∧ (∀ (anchor : HtmlAnchor) (doc : BrowserDoc), anchor.context.length ≤ 20 →
        resolveHtmlAnchor anchor doc = resolveHtmlAnchorUngated anchor doc)
    ∧ (∀ (anchor : PdfAnchor) (pageText : String) (layer : Option (List PdfSpan)),
        anchor.context.length ≤ 20 →
        resolvePdfAnchor anchor pageText layer = resolvePdfAnchorUngated anchor layer) := by
  refine ⟨jsSliceCore10_eq_empty, ?_, ?_⟩
  · intro anchor doc h
    have hempty := jsSliceCore10_eq_empty anchor.context h
    cases hx : resolveXPath anchor.xpath doc with
    | none => simp [resolveHtmlAnchor, resolveHtmlAnchorUngated, hx]
    | some node =>
      cases hf : findHighlightTextNode node with
      | none => simp [resolveHtmlAnchor, resolveHtmlAnchorUngated, hx, hf]
      | some nt =>
        simp [resolveHtmlAnchor, resolveHtmlAnchorUngated, hx, hf, hempty,
          jsIncludes_empty]
  · intro anchor pageText layer h
    have hempty := jsSliceCore10_eq_empty anchor.context h
    cases layer with
    | none => rfl
    | some spans =>
      simp [resolvePdfAnchor, resolvePdfAnchorUngated, hempty, jsIncludes_empty]

/-- Witness for C3 at a concrete 5-character context. -/
theorem c3_witness :
    ((("short" : String).length ≤ 20)
      ∧ resolveHtmlAnchor c3Anchor c3Doc = resolveHtmlAnchorUngated c3Anchor c3Doc)
    ∧ (resolvePdfAnchor c3PdfAnchor "anything" (some c3Spans)
        = resolvePdfAnchorUngated c3PdfAnchor (some c3Spans)) := by
  refine ⟨⟨by decide, ?_⟩, ?_⟩
  · exact c3_short_context_gate_never_fails.2.1 c3Anchor c3Doc (by decide)
  · exact c3_short_context_gate_never_fails.2.2 c3PdfAnchor "anything" (some c3Spans)
      (by decide)

/-- C4 counterexample: for a selection living in the second text node of a
container with two text-node children, `createHtmlAnchor` stores the raw
node-local Range offsets 0-5, while the offsets into the concatenated text
of the addressed container's text-node descendants are 6-11. -/
theorem c4_counterexample :
    (createHtmlAnchor c4Range).startOffset = 0
    ∧ (createHtmlAnchor c4Range).endOffset = 5
    ∧ specConcatStartOffset c4Range = 6
    ∧ specConcatEndOffset c4Range = 11
    ∧ (createHtmlAnchor c4Range).startOffset ≠ specConcatStartOffset c4Range := by
  refine ⟨by decide, by decide, by decide, by decide, by decide⟩

/-- C4 amended: `createHtmlAnchor` stores the raw node-local
`range.startOffset` / `range.endOffset` of the selection boundaries, which
in general (concretely: for `c4Range`) differ from character offsets into
the concatenated text of the addressed container's text-node
descendants. -/
theorem c4_amended_raw_range_offsets :
    (∀ r : JsRange, (createHtmlAnchor r).startOffset = r.startOffset
        ∧ (createHtmlAnchor r).endOffset = r.endOffset)
    ∧ specConcatStartOffset c4Range ≠ (createHtmlAnchor c4Range).startOffset := by
  refine ⟨fun r => ⟨rfl, rfl⟩, by decide⟩

/-- C5 counterexample: `deleteHighlight "H1"` removes `H1` and its note and
leaves the sibling `H2` with its note, but the AI output `A1` with
`highlightId = "H1"` is still present afterwards: the store has no AI
cascade (`deleteAIOutputsByHighlight` is never invoked). -/
theorem c5_counterexample :
    (deleteHighlight "H1" c5Store).1 = true
    ∧ (deleteHighlight "H1" c5Store).2.highlights = [c5H2]
    ∧ (deleteHighlight "H1" c5Store).2.notes = [c5N2]
    ∧ (deleteHighlight "H1" c5Store).2.aiOutputs = [c5A1]
    ∧ c5A1.highlightId = "H1" := by
  refine ⟨by decide, by decide, by decide, by decide, by decide⟩

/-- C5 amended: for every store and id, `deleteHighlight` removes exactly
the highlights with that id and — when one existed — their notes, returns
`true` iff a highlight with that id existed, and leaves the AI outputs
(and the other collections) unchanged: the AI-output cascade of the claim
does not happen. -/
theorem c5_amended_delete_highlight_cascade :
    ∀ (s : Store) (h1 : String),
      ((deleteHighlight h1 s).1 = true ↔ ∃ h ∈ s.highlights, h.id = h1)
      ∧ (deleteHighlight h1 s).2.highlights = s.highlights.filter (fun h => h.id != h1)
      ∧ (deleteHighlight h1 s).2.notes
          = (if (deleteHighlight h1 s).1
             then s.notes.filter (fun n => n.highlightId != h1) else s.notes)
      ∧ (deleteHighlight h1 s).2.aiOutputs = s.aiOutputs
      ∧ (deleteHighlight h1 s).2.documents = s.documents
      ∧ (deleteHighlight h1 s).2.vocabulary = s.vocabulary := by
  intro s h1
  by_cases hc : (s.highlights.filter (fun h => h.id != h1)).length = s.highlights.length
  · have hall : ∀ h ∈ s.highlights, (h.id != h1) = true :=
      List.filter_length_eq_length.mp hc
    have hfe : s.highlights.filter (fun h => h.id != h1) = s.highlights :=
      List.filter_eq_self.mpr hall
    have hres : deleteHighlight h1 s = (false, s) := by
      simp [deleteHighlight, hc]
    rw [hres]
    refine ⟨?_, hfe.symm, by simp, rfl, rfl, rfl⟩
    simp only [Bool.false_eq_true, false_iff]
    rintro ⟨h, hmem, hid⟩
    have hh := hall h hmem
    rw [bne_iff_ne] at hh
    exact hh hid
  · have hres : deleteHighlight h1 s
        = (true, deleteNotesByHighlight h1
            { s with highlights := s.highlights.filter (fun h => h.id != h1) }) := by
      simp [deleteHighlight, hc]
    rw [hres]
    refine ⟨?_, rfl, by simp [deleteNotesByHighlight], rfl, rfl, rfl⟩
    simp only [true_iff]
    by_contra hno
    push_neg at hno
    apply hc
    apply List.filter_length_eq_length.mpr
    intro h hmem
    rw [bne_iff_ne]
    exact hno h hmem

/-- C6, evaluated at the failing input: `deleteDocument "D1"` on a store
with document `D1`, highlight `H1` of `D1`, and note `N1` of `H1`, removes
the document and the highlight but leaves `N1` in the store even though no
highlight with id `"H1"` remains — the bulk highlight filter of
`deleteHighlightsByDocument` never deletes notes, contradicting the
function's own "(cascades to highlights and notes)" doc comment. -/
theorem c6_orphaned_note_eval :
    (deleteDocument "D1" c6Store).1 = true
    ∧ (deleteDocument "D1" c6Store).2.documents = []
    ∧ (deleteDocument "D1" c6Store).2.highlights = []
    ∧ (deleteDocument "D1" c6Store).2.notes = [c6N1]
    ∧ c6N1.highlightId = "H1"
    ∧ c6H1.id = "H1"
    ∧ c6H1.documentId = "D1" := by
  refine ⟨by decide, by decide, by decide, by decide, by decide, by decide, by decide⟩

/-- C7: for every store containing a document with id `d1`,
`deleteDocument d1` leaves the vocabulary collection entirely unchanged
(in particular every entry with `documentId = d1` is still present) while
all highlights of `d1` are removed. -/
theorem c7_vocabulary_survives_delete_document :
    ∀ (s : Store) (d1 : String),
      (∃ d ∈ s.documents, d.id = d1) →
      (deleteDocument d1 s).2.vocabulary = s.vocabulary
      ∧ (deleteDocument d1 s).2.highlights
          = s.highlights.filter (fun h => h.documentId != d1)
      ∧ (∀ v ∈ s.vocabulary, v.documentId = d1 → v ∈ (deleteDocument d1 s).2.vocabulary)
      ∧ (∀ h ∈ (deleteDocument d1 s).2.highlights, h.documentId ≠ d1) := by
  intro s d1 hex
  obtain ⟨d, hd, hid⟩ := hex
  have hc : ¬ (s.documents.filter (fun x => x.id != d1)).length = s.documents.length := by
    intro hc
    have hh := List.filter_length_eq_length.mp hc d hd
    rw [bne_iff_ne] at hh
    exact hh hid
  have hres : deleteDocument d1 s
      = (true, deleteHighlightsByDocument d1
          { s with documents := s.documents.filter (fun x => x.id != d1) }) := by
    simp [deleteDocument, hc]
  rw [hres]
  refine ⟨rfl, rfl, fun v hv _ => hv, ?_⟩
  intro h hmem
  have hmem2 := List.of_mem_filter hmem
  rw [bne_iff_ne] at hmem2
  exact hmem2

/-- Witness for C7 at a concrete store with a document, a highlight, and a
vocabulary entry all belonging to `D1`. -/
theorem c7_witness :
    (∃ d ∈ c7Store.documents, d.id = "D1")
    ∧ (deleteDocument "D1" c7Store).2.vocabulary = c7Store.vocabulary
    ∧ (deleteDocument "D1" c7Store).2.highlights = [] := by
  refine ⟨by decide, (c7_vocabulary_survives_delete_document c7Store "D1" (by decide)).1, ?_⟩
  exact ((c7_vocabulary_survives_delete_document c7Store "D1" (by decide)).2.1).trans (by decide)

/-- C8 counterexample: `saveNote "H1" "a"` with fresh id `"id1"` at time 1,
then `saveNote "H1" "b"` with fresh id `"id2"` at time 2, leaves exactly
one note for `H1` with content `"b"` — but its id is still `"id1"` and its
timestamp still `1`: the second call does not replace the identifier or
the timestamp. -/
theorem c8_counterexample :
    ((saveNote "H1" "b" "id2" 2 ((saveNote "H1" "a" "id1" 1 emptyStore).2)).2).notes
      = [{ id := "id1", highlightId := "H1", content := "b", createdAt := 1 }]
    ∧ ("id1" : String) ≠ "id2"
    ∧ (1 : Nat) ≠ 2 := by
  refine ⟨by decide, by decide, by decide⟩

/-- C8 amended: starting from any store with no note for `hid`, the second
`saveNote` call replaces only the content of the existing note: exactly
one note for `hid` remains, with content `b` but with the identifier and
timestamp created by the first call. -/
theorem c8_amended_upsert_keeps_identity :
    ∀ (s : Store) (hid a b id1 id2 : String) (t1 t2 : Nat),
      (∀ n ∈ s.notes, n.highlightId ≠ hid) →
      ((saveNote hid b id2 t2 ((saveNote hid a id1 t1 s).2)).2).notes
        = s.notes ++ [{ id := id1, highlightId := hid, content := b, createdAt := t1 }]
      ∧ ((saveNote hid b id2 t2 ((saveNote hid a id1 t1 s).2)).2).notes.countP
          (fun n => n.highlightId == hid) = 1 := by
  intro s hid a b id1 id2 t1 t2 h
  have h1 : updateFirstNote s.notes hid a = none := updateFirstNote_eq_none s.notes hid a h
  have hs1 : (saveNote hid a id1 t1 s).2
      = { s with notes := s.notes
            ++ [{ id := id1, highlightId := hid, content := a, createdAt := t1 }] } := by
    simp [saveNote, h1]
  have h2 := updateFirstNote_append s.notes
    { id := id1, highlightId := hid, content := a, createdAt := t1 } hid b h rfl
  have hmain : ((saveNote hid b id2 t2 ((saveNote hid a id1 t1 s).2)).2).notes
      = s.notes ++ [{ id := id1, highlightId := hid, content := b, createdAt := t1 }] := by
    rw [hs1]
    simp [saveNote, h2]
  refine ⟨hmain, ?_⟩
  rw [hmain, List.countP_append]
  have hzero : s.notes.countP (fun n => n.highlightId == hid) = 0 := by
    apply List.countP_eq_zero.mpr
    intro n hn
    simp only [beq_iff_eq]
    exact h n hn
  rw [hzero]
  simp [List.countP_cons]

/-- Witness for C8 at the empty store. -/
theorem c8_witness :
    (∀ n ∈ emptyStore.notes, n.highlightId ≠ "H1")
    ∧ ((saveNote "H1" "b" "id2" 2 ((saveNote "H1" "a" "id1" 1 emptyStore).2)).2).notes
        = emptyStore.notes
          ++ [{ id := "id1", highlightId := "H1", content := "b", createdAt := 1 }] := by
  have hemp : ∀ n ∈ emptyStore.notes, n.highlightId ≠ "H1" := by
    intro n hn
    simp [emptyStore] at hn
  exact ⟨hemp,
    (c8_amended_upsert_keeps_identity emptyStore "H1" "a" "b" "id1" "id2" 1 2 hemp).1⟩

/-- C9: for every PDF anchor whose context gate passes and every span
sequence, `resolvePdfAnchor` collects a rectangle for exactly the spans
whose running interval `[start, end)` satisfies
`end > startOffset && start < endOffset` (half-open overlap), in span
order. -/
theorem c9_overlap_rule :
    ∀ (anchor : PdfAnchor) (pageText : String) (spans : List PdfSpan),
      jsIncludes pageText (jsSliceCore anchor.context 10) = true →
      resolvePdfAnchor anchor pageText (some spans)
        = (let rects := ((spanIntervals spans 0).filter
              (fun u => decide (anchor.startOffset < u.2.1 ∧ u.1 < anchor.endOffset))).map
              (fun u => u.2.2)
           if rects.length > 0 then some rects else none) := by
  intro anchor pageText spans hgate
  simp only [resolvePdfAnchor, hgate, Bool.not_true, Bool.false_eq_true, if_false,
    collectPdfRects_eq]

/-- Witness for C9: spans of lengths 5, 10, 5, 5 (intervals `[0,5)`,
`[5,15)`, `[15,20)`, `[20,25)`) against the anchor range `[3,17)` produce
the rectangles of exactly the first three spans. -/
theorem c9_witness :
    jsIncludes "page" (jsSliceCore c9Anchor.context 10) = true
    ∧ resolvePdfAnchor c9Anchor "page" (some c9Spans)
        = some [{ top := 0, left := 1, width := 1, height := 1 },
                { top := 0, left := 2, width := 1, height := 1 },
                { top := 0, left := 3, width := 1, height := 1 }] := by
  refine ⟨by decide, ?_⟩
  exact (c9_overlap_rule c9Anchor "page" c9Spans (by decide)).trans (by decide)

/-- C10 counterexample: extracting context with radius 30 for the length-4
selection at offset 0 of the content `"Hello world"` yields the whole
content `"Hello world"` (the right padding is clipped to the content
length), not `"Hello"`. -/
theorem c10_counterexample :
    c10Range.toText = "Hell"
    ∧ extractContext c10Range 30 = "Hello world"
    ∧ ("Hello world" : String) ≠ "Hello" := by
  refine ⟨by decide, by decide, by decide⟩

/-- C10 amended: when the selection starts at offset 0 and the content is
no longer than the selection plus the 30-character right padding, the
extracted context is the entire content; in the concrete scenario the
context for the length-4 selection in `"Hello world"` is
`"Hello world"`. -/
theorem c10_amended_whole_content :
    (∀ (content sel : String),
        firstIdxOfSeq content.toList sel.toList = some 0 →
        content.toList.length ≤ sel.toList.length + 30 →
        extractContextCore content sel 30 = content)
    ∧ extractContext c10Range 30 = "Hello world" := by
  constructor
  · intro content sel hidx hlen
    unfold extractContextCore
    rw [hidx]
    show stringSlice content (0 - 30)
        (min content.toList.length (0 + sel.length + 30)) = content
    have hsel : sel.length = sel.toList.length := rfl
    have hstop : min content.toList.length (0 + sel.length + 30)
        = content.toList.length := by
      rw [hsel]
      omega
    rw [hstop]
    show String.mk ((content.toList.drop 0).take (content.toList.length - 0)) = content
    simp only [List.drop_zero, Nat.sub_zero]
    show String.mk (content.data.take content.data.length) = content
    rw [List.take_length]
  · decide

/-- Witness for C10's amended statement at the concrete boundary
selection. -/
theorem c10_witness :
    (firstIdxOfSeq "Hello world".toList "Hell".toList = some 0
      ∧ ("Hello world" : String).toList.length ≤ ("Hell" : String).toList.length + 30)
    ∧ extractContextCore "Hello world" "Hell" 30 = "Hello world" := by
  refine ⟨⟨by decide, by decide⟩, ?_⟩
  exact c10_amended_whole_content.1 "Hello world" "Hell" (by decide) (by decide)
